import Mathlib

/-!
Verification of the Minmeet client core: the segmented audio capture
pipeline (src/static/js/audio-handler.js) and the realtime sync and
reconciliation client (src/static/js/app.js), shallowly embedded as pure
state-transition functions.

Modelling conventions:
- audio blobs are modelled by their byte sizes (a Nat);
- timer handles are modelled by a Bool meaning "an interval is scheduled";
- the DOM containers are modelled by the canonical lists that back them;
- JavaScript's single-threaded event loop makes every handler a total
  function on the state; tasks queued by an API call (the MediaRecorder
  dataavailable and stop events queued by MediaRecorder.stop) run after
  the synchronous body that scheduled them, in queue order;
- ghost counters (completions, esCloseCount, finalizeAttempts, alerts) and
  the ghost log fields (sent, received) record the observable effects the
  claims talk about; they are written only at the corresponding call sites.
-/

namespace Minmeet

/-- JavaScript truthiness of an optional string: an absent value and the
empty string are falsy, every other string is truthy. -/
def jsTruthy : Option String → Bool
  | none => false
  | some s => s != ""

/-- MediaRecorder.state; the paused state is never used by the handler. -/
inductive RecState
  | inactive
  | recording
deriving DecidableEq

/-- A chunk forwarded to the onChunkReady consumer: the blob (modelled by
its total byte size) together with the isFinal flag passed along with it. -/
structure Chunk where
  size : Nat
  isFinal : Bool
deriving DecidableEq

/-- State of an AudioHandler instance together with the MediaRecorder it
owns.  pending models bytes the recorder has encoded but not yet delivered
to ondataavailable; chunks mirrors this.chunks (the buffered blob sizes);
sent is the ordered log of chunks forwarded to the onChunkReady callback. -/
structure AHState where
  recState : RecState
  pending : Nat
  chunks : List Nat
  isRecording : Bool
  chunkTimer : Bool
  visualizerTimer : Bool
  streamStopped : Bool
  contextClosed : Bool
  sent : List Chunk
deriving DecidableEq

/-- The ondataavailable handler: a delivered blob is buffered unless it is
empty (event.data.size > 0). -/
def dataavailable (s : AHState) (size : Nat) : AHState :=
  if size > 0 then { s with chunks := s.chunks ++ [size] } else s

/-- The method named with a leading underscore that sends a chunk:
concatenates the buffered blobs into one blob, clears the buffer and
forwards the blob with the given finality flag; an empty buffer is dropped
silently (the early return on chunks.length === 0). -/
def sendChunk (s : AHState) (isFinal : Bool) : AHState :=
  if s.chunks = [] then s
  else { s with chunks := [], sent := s.sent ++ [⟨s.chunks.sum, isFinal⟩] }

/-- MediaRecorder.stop delivers the encoder's remaining buffer through a
queued dataavailable event (empty buffers are dropped by the handler)
before the queued stop event fires. -/
def deliverPending (s : AHState) : AHState :=
  { dataavailable s s.pending with pending := 0 }

/-- startRecording: stores the callback, clears the buffer, starts the
recorder and schedules the segmentation and visualizer timers. -/
def startRecording (s : AHState) : AHState :=
  { s with isRecording := true, chunks := [], recState := RecState.recording,
           chunkTimer := true, visualizerTimer := true }

/-- Audio reaching the recorder while it is recording accumulates in its
pending (encoded but not yet delivered) buffer. -/
def capture (s : AHState) (size : Nat) : AHState :=
  if s.recState = RecState.recording then { s with pending := s.pending + size } else s

/-- One segmentation-timer tick: requestData() makes the recorder deliver
its pending buffer to ondataavailable, and after the 100 ms grace delay the
accumulated bytes are forwarded as a non-final chunk. -/
def segmentationTick (s : AHState) : AHState :=
  if s.recState = RecState.recording then sendChunk (deliverPending s) false else s

/-- stopRecording: clears both timers, stops the recorder if it is not
inactive, stops the stream tracks, closes the audio context, and
synchronously flushes any already buffered blobs as a final chunk.
If the recorder was active, stopping it queues a dataavailable event
(delivering the encoder's remaining buffer) followed by the stop event,
whose handler forwards the buffer via the send method with its isFinal
parameter left at the default, false; those queued tasks run after the
synchronous body above them.  Calling close on an already closed audio
context yields a rejected promise that nothing observes; the model keeps
the context closed. -/
def stopRecording (s : AHState) : AHState :=
  let s1 : AHState :=
    { s with isRecording := false, chunkTimer := false, visualizerTimer := false }
  if s1.recState = RecState.inactive then
    let s3 : AHState := { s1 with streamStopped := true, contextClosed := true }
    if s3.chunks = [] then s3 else sendChunk s3 true
  else
    let s2 : AHState := { s1 with recState := RecState.inactive }
    let s3 : AHState := { s2 with streamStopped := true, contextClosed := true }
    let s4 : AHState := if s3.chunks = [] then s3 else sendChunk s3 true
    sendChunk (deliverPending s4) false

/-- A fresh AudioHandler after a successful initialization. -/
def initAH : AHState :=
  { recState := RecState.inactive, pending := 0, chunks := [], isRecording := false,
    chunkTimer := false, visualizerTimer := false, streamStopped := false,
    contextClosed := false, sent := [] }

/-- A transcript entry as delivered in update payloads. -/
structure TranscriptEntry where
  id : String
  speaker : String
  text : String
  timestamp : Nat
  is_question : Bool
deriving DecidableEq

/-- An answer inside a QA pair. -/
structure QAnswer where
  speaker : String
  text : String
  timestamp : Nat
deriving DecidableEq

/-- The question of a QA pair (rendering defaults for missing sub-fields are
presentation-layer behaviour and outside the canonical state). -/
structure QQuestion where
  text : String
  asked_by : String
  timestamp : Nat
deriving DecidableEq

/-- A question plus its ordered answers and the resolved flag. -/
structure QAPair where
  question : QQuestion
  answers : List QAnswer
  resolved : Bool
deriving DecidableEq

/-- An inbound update payload; every field is optional. -/
structure UpdateData where
  transcript : Option (List TranscriptEntry)
  qa_pairs : Option (List QAPair)
  total_speakers : Option Nat
  status : Option String
  error : Option String
deriving DecidableEq

/-- The visible screen of the single-page app. -/
inductive Screen
  | setup
  | meeting
  | completion
deriving DecidableEq

/-- Lifecycle of the EventSource owned by the app: never created, live, or
closed (close on a closed EventSource is a no-op). -/
inductive ESState
  | absent
  | streaming
  | closed
deriving DecidableEq

/-- Which transport delivered an update to handleUpdate. -/
inductive TransportSource
  | push
  | poll
deriving DecidableEq

/-- One inbound event of the realtime sync client: a pushed SSE message, an
SSE stream error, or a firing of the poll interval carrying the fetch
result (none models a failed or non-ok fetch, which the poll handler only
logs). -/
inductive SyncEvent
  | esMessage (d : UpdateData)
  | esError
  | pollTick (d : Option UpdateData)
deriving DecidableEq

/-- State of a MeetingApp instance.  transcriptData and qaDisplay are the
canonical lists backing the transcript and QA containers; completions
counts invocations of handleMeetingComplete; esCloseCount counts the
transitions of the EventSource from live to closed; finalizeAttempts counts
stop requests actually sent to the server; alerts counts user-facing error
alerts; received is the ghost log of updates handed to handleUpdate,
tagged by transport. -/
structure AppState where
  meetingId : Option String
  transcriptData : List TranscriptEntry
  qaDisplay : List QAPair
  qaCount : Nat
  participantCount : Option Nat
  transcriptStatus : String
  screen : Screen
  durationTimer : Bool
  completions : Nat
  isActive : Bool
  stopBtnEnabled : Bool
  stopBtnLabel : String
  audio : AHState
  esState : ESState
  esCloseCount : Nat
  polling : Bool
  pollMs : Option Nat
  finalizeAttempts : Nat
  alerts : Nat
  received : List (TransportSource × UpdateData)
deriving DecidableEq

/-- handleMeetingComplete: stops the duration timer, switches to the
completion screen (download link and summary markup are presentation
only), and is counted by the ghost field completions. -/
def handleMeetingComplete (st : AppState) : AppState :=
  { st with durationTimer := false, screen := Screen.completion,
            completions := st.completions + 1 }

/-- updateQADisplay: clears the QA container and rebuilds it from the
incoming list; an empty list renders the empty-state placeholder. -/
def updateQADisplay (st : AppState) (qaPairs : List QAPair) : AppState :=
  if qaPairs = [] then { st with qaDisplay := [], qaCount := 0 }
  else { st with qaDisplay := qaPairs, qaCount := qaPairs.length }

/-- The list transformation inside appendTranscript: each incoming entry is
dropped when some entry with the same id is already present, otherwise it
is pushed at the end (the DOM append mirrors the list push). -/
def appendTranscript (cur entries : List TranscriptEntry) : List TranscriptEntry :=
  entries.foldl
    (fun acc e => if ∃ x ∈ acc, x.id = e.id then acc else acc ++ [e]) cur

/-- The transcript block of handleUpdate: guard data.transcript and
data.transcript.length > 0, then append with id dedup. -/
def applyTranscript (st : AppState) (d : UpdateData) : AppState :=
  match d.transcript with
  | some l =>
      if l = [] then st
      else { st with transcriptData := appendTranscript st.transcriptData l }
  | none => st

/-- The QA block of handleUpdate: guard data.qa_pairs and
data.qa_pairs.length > 0, then rebuild the QA display. -/
def applyQA (st : AppState) (d : UpdateData) : AppState :=
  match d.qa_pairs with
  | some l => if l = [] then st else updateQADisplay st l
  | none => st

/-- The participant-count block of handleUpdate: guard the truthiness of
data.total_speakers, so the value 0 is skipped. -/
def applySpeakers (st : AppState) (d : UpdateData) : AppState :=
  match d.total_speakers with
  | some v => if v = 0 then st else { st with participantCount := some v }
  | none => st

/-- The status-indicator block of handleUpdate: with a non-empty transcript
the status label flips to Transcribing (the 1 s revert timer is real-time
presentation behaviour outside this state model). -/
def applyStatusIndicator (st : AppState) (d : UpdateData) : AppState :=
  match d.transcript with
  | some l => if l = [] then st else { st with transcriptStatus := "Transcribing..." }
  | none => st

/-- handleUpdate: a truthy error field is logged and the payload otherwise
ignored; a completed status triggers handleMeetingComplete and returns;
otherwise the transcript, QA, speaker-count and status-indicator blocks run
in source order. -/
def handleUpdate (st : AppState) (d : UpdateData) : AppState :=
  if jsTruthy d.error then st
  else if d.status = some "completed" then handleMeetingComplete st
  else applyStatusIndicator (applySpeakers (applyQA (applyTranscript st d) d) d) d

/-- startPolling: schedules the fallback poll interval at 3000 ms. -/
def startPolling (st : AppState) : AppState :=
  { st with polling := true, pollMs := some 3000 }

/-- connectSSE on its success path: the EventSource is created and live
(the catch path falls back to startPolling without creating one). -/
def connectSSE (st : AppState) : AppState :=
  { st with esState := ESState.streaming }

/-- Closing the EventSource: a live source becomes closed (counted once);
closing an already closed source changes nothing. -/
def closeES (st : AppState) : AppState :=
  if st.esState = ESState.streaming then
    { st with esState := ESState.closed, esCloseCount := st.esCloseCount + 1 }
  else st

/-- One event of the sync client.  Pushed messages are delivered only while
the EventSource is live; the onerror handler closes the source and starts
polling; a poll tick is delivered only while the poll interval is
scheduled, and a failed or non-ok fetch is only logged. -/
def syncStep (st : AppState) (e : SyncEvent) : AppState :=
  match e with
  | SyncEvent.esMessage d =>
      if st.esState = ESState.streaming then
        let st' := handleUpdate st d
        { st' with received := st'.received ++ [(TransportSource.push, d)] }
      else st
  | SyncEvent.esError =>
      if st.esState = ESState.streaming then startPolling (closeES st) else st
  | SyncEvent.pollTick d =>
      if st.polling then
        match d with
        | some u =>
            let st' := handleUpdate st u
            { st' with received := st'.received ++ [(TransportSource.poll, u)] }
        | none => st
      else st

/-- stopMeeting with the outcome of the stop request as a parameter: the
guard on isActive, disabling the stop button, stopping audio capture,
closing the EventSource if one was created, clearing the poll interval,
the stop request itself (counted by finalizeAttempts), then either
handleMeetingComplete on success or the alert plus button re-enable on
failure; finally isActive is cleared on both paths. -/
def stopMeeting (st : AppState) (serverOk : Bool) : AppState :=
  if st.isActive = false then st
  else
    let s1 : AppState :=
      { st with stopBtnEnabled := false, stopBtnLabel := "Finalizing..." }
    let s2 : AppState := { s1 with audio := stopRecording s1.audio }
    let s3 : AppState := if s2.esState ≠ ESState.absent then closeES s2 else s2
    let s4 : AppState := if s3.polling then { s3 with polling := false } else s3
    let s5 : AppState := { s4 with finalizeAttempts := s4.finalizeAttempts + 1 }
    let s6 : AppState :=
      if serverOk then handleMeetingComplete s5
      else { s5 with alerts := s5.alerts + 1, stopBtnEnabled := true,
                     stopBtnLabel := "End Meeting" }
    { s6 with isActive := false }

/-- One request issued by uploadAudioChunk. -/
structure UploadRequest where
  meetingId : String
  blobSize : Nat
  is_final : Bool
deriving DecidableEq

/-- Outcome of the fetch backing one upload: accepted, a non-2xx response,
or a network error. -/
inductive FetchOutcome
  | ok
  | httpError
  | netError
deriving DecidableEq

/-- Observable result of one uploadAudioChunk call: the requests it issued,
how many errors it logged to the console, and whether it threw. -/
structure UploadResult where
  requests : List UploadRequest
  errorLogs : Nat
  threw : Bool
deriving DecidableEq

/-- uploadAudioChunk: a falsy meetingId returns before any request is
built; otherwise exactly one fetch is issued and a non-ok response or a
network error is logged inside the function, which never throws. -/
def uploadAudioChunk (meetingId : Option String) (blobSize : Nat) (is_final : Bool)
    (outcome : FetchOutcome) : UploadResult :=
  if jsTruthy meetingId then
    { requests := [{ meetingId := meetingId.getD "", blobSize := blobSize,
                     is_final := is_final }],
      errorLogs :=
        match outcome with
        | FetchOutcome.ok => 0
        | FetchOutcome.httpError => 1
        | FetchOutcome.netError => 1,
      threw := false }
  else { requests := [], errorLogs := 0, threw := false }

/-- A MeetingApp mid-meeting: recording started, EventSource live. -/
def initApp : AppState :=
  { meetingId := some "m1", transcriptData := [], qaDisplay := [], qaCount := 0,
    participantCount := none, transcriptStatus := "Listening...",
    screen := Screen.meeting, durationTimer := true, completions := 0,
    isActive := true, stopBtnEnabled := true, stopBtnLabel := "End Meeting",
    audio := startRecording initAH, esState := ESState.streaming, esCloseCount := 0,
    polling := false, pollMs := none, finalizeAttempts := 0, alerts := 0,
    received := [] }

/-- A payload carrying only a completed status. -/
def completedPayload : UpdateData :=
  { transcript := none, qa_pairs := none, total_speakers := none,
    status := some "completed", error := none }

/-- A sample QA pair. -/
def samplePair : QAPair :=
  { question := { text := "Release date", asked_by := "Ana", timestamp := 10 },
    answers := [], resolved := false }

/-- A payload carrying a one-element qa_pairs list. -/
def qaPayloadA : UpdateData :=
  { transcript := none, qa_pairs := some [samplePair], total_speakers := none,
    status := none, error := none }

/-- A payload carrying a present but empty qa_pairs list. -/
def qaPayloadEmptyB : UpdateData :=
  { transcript := none, qa_pairs := some ([] : List QAPair), total_speakers := none,
    status := none, error := none }

/-- A payload carrying both a speaker count and a completed status. -/
def speakersCompletedPayload : UpdateData :=
  { transcript := none, qa_pairs := none, total_speakers := some 5,
    status := some "completed", error := none }

/-- A payload carrying only a speaker count. -/
def speakersPayload : UpdateData :=
  { transcript := none, qa_pairs := none, total_speakers := some 4,
    status := none, error := none }

/-- A sample transcript entry. -/
def sampleEntry : TranscriptEntry :=
  { id := "t1", speaker := "Ana", text := "hello", timestamp := 3,
    is_question := false }

/-- A second sample transcript entry with a distinct id. -/
def sampleEntryB : TranscriptEntry :=
  { id := "t2", speaker := "Ben", text := "hi", timestamp := 4,
    is_question := false }

theorem appendTranscript_nil (cur : List TranscriptEntry) :
    appendTranscript cur [] = cur := rfl

theorem appendTranscript_cons (cur : List TranscriptEntry) (e : TranscriptEntry)
    (es : List TranscriptEntry) :
    appendTranscript cur (e :: es) =
      if ∃ x ∈ cur, x.id = e.id then appendTranscript cur es
      else appendTranscript (cur ++ [e]) es := by
  unfold appendTranscript
  rw [List.foldl_cons]
  by_cases h : ∃ x ∈ cur, x.id = e.id
  · simp [h]
  · simp [h]

theorem appendTranscript_extends (es : List TranscriptEntry) :
    ∀ cur, ∃ t, appendTranscript cur es = cur ++ t ∧ t.Sublist es := by
  induction es with
  | nil =>
      intro cur
      exact ⟨[], by simp [appendTranscript_nil], List.Sublist.refl _⟩
  | cons e es ih =>
      intro cur
      rw [appendTranscript_cons]
      by_cases h : ∃ x ∈ cur, x.id = e.id
      · obtain ⟨t, ht, hs⟩ := ih cur
        exact ⟨t, by simp [h, ht], hs.cons e⟩
      · obtain ⟨t, ht, hs⟩ := ih (cur ++ [e])
        refine ⟨e :: t, ?_, hs.cons₂ e⟩
        simp [h, ht]

theorem appendTranscript_nodup (es : List TranscriptEntry) :
    ∀ cur, (cur.map fun x => x.id).Nodup →
      ((appendTranscript cur es).map fun x => x.id).Nodup := by
  induction es with
  | nil =>
      intro cur h
      simpa [appendTranscript_nil] using h
  | cons e es ih =>
      intro cur h
      rw [appendTranscript_cons]
      by_cases hmem : ∃ x ∈ cur, x.id = e.id
      · simpa [hmem] using ih cur h
      · have hni : e.id ∉ cur.map fun x => x.id := by
          simp only [List.mem_map]
          rintro ⟨x, hx, hxe⟩
          exact hmem ⟨x, hx, hxe⟩
        have h' : ((cur ++ [e]).map fun x => x.id).Nodup := by
          simp [List.nodup_append, h, hni]
        simpa [hmem] using ih (cur ++ [e]) h'

theorem appendTranscript_mem_noop (cur : List TranscriptEntry) (e : TranscriptEntry)
    (h : ∃ x ∈ cur, x.id = e.id) : appendTranscript cur [e] = cur := by
  rw [appendTranscript_cons]
  simp [h, appendTranscript_nil]

theorem appendTranscript_single (cur : List TranscriptEntry) (e : TranscriptEntry)
    (h : ¬ ∃ x ∈ cur, x.id = e.id) : appendTranscript cur [e] = cur ++ [e] := by
  rw [appendTranscript_cons]
  simp [h, appendTranscript_nil]

theorem appendTranscript_idem (cur : List TranscriptEntry) (e : TranscriptEntry) :
    appendTranscript (appendTranscript cur [e]) [e] = appendTranscript cur [e] := by
  by_cases h : ∃ x ∈ cur, x.id = e.id
  · rw [appendTranscript_mem_noop cur e h, appendTranscript_mem_noop cur e h]
  · rw [appendTranscript_single cur e h]
    exact appendTranscript_mem_noop _ e ⟨e, by simp, rfl⟩

theorem appendTranscript_twice_count (cur : List TranscriptEntry)
    (e : TranscriptEntry) (hnd : (cur.map fun x => x.id).Nodup) :
    ((appendTranscript (appendTranscript cur [e]) [e]).map fun x => x.id).count e.id
      = 1 := by
  rw [appendTranscript_idem]
  by_cases h : ∃ x ∈ cur, x.id = e.id
  · rw [appendTranscript_mem_noop cur e h]
    obtain ⟨x, hx, hxe⟩ := h
    have hmem : e.id ∈ cur.map fun x => x.id := List.mem_map.mpr ⟨x, hx, hxe⟩
    exact List.count_eq_one_of_mem hnd hmem
  · rw [appendTranscript_single cur e h]
    have hni : e.id ∉ cur.map fun x => x.id := by
      simp only [List.mem_map]
      rintro ⟨x, hx, hxe⟩
      exact h ⟨x, hx, hxe⟩
    simp [List.count_append, List.count_eq_zero.mpr hni]

/-- Claim C4: the canonical transcript list keeps each entry id at most
once: appending preserves id-uniqueness, incoming entries are appended at
the end preserving their arrival order, an entry whose id is already
present is discarded, and applying the same entry id twice yields exactly
one canonical entry. -/
theorem c4_transcript_dedup_append (cur entries : List TranscriptEntry)
    (e : TranscriptEntry) (hnd : (cur.map fun x => x.id).Nodup) :
    ((appendTranscript cur entries).map fun x => x.id).Nodup
    ∧ (∃ t, appendTranscript cur entries = cur ++ t ∧ t.Sublist entries)
    ∧ ((∃ x ∈ cur, x.id = e.id) → appendTranscript cur [e] = cur)
    ∧ appendTranscript (appendTranscript cur [e]) [e] = appendTranscript cur [e]
    ∧ ((appendTranscript (appendTranscript cur [e]) [e]).map fun x => x.id).count e.id
        = 1 :=
  ⟨appendTranscript_nodup entries cur hnd, appendTranscript_extends entries cur,
   fun h => appendTranscript_mem_noop cur e h, appendTranscript_idem cur e,
   appendTranscript_twice_count cur e hnd⟩

/-- Witness for C4 at a concrete transcript state and entry. -/
theorem c4_transcript_dedup_append_witness :
    ((appendTranscript [sampleEntry] [sampleEntryB]).map fun x => x.id).Nodup
    ∧ appendTranscript (appendTranscript [sampleEntry] [sampleEntryB]) [sampleEntryB]
        = appendTranscript [sampleEntry] [sampleEntryB] := by
  have h := c4_transcript_dedup_append [sampleEntry] [sampleEntryB] sampleEntryB
    (by decide)
  exact ⟨h.1, h.2.2.2.1⟩

/-- Claim C9: an upload whose transmission fails (network error or non-2xx
response) issues exactly one request, logs the failure, surfaces nothing
and never throws; the chunk is not retried. -/
theorem c9_upload_failure_swallowed (id : String) (blobSize : Nat) (fin : Bool)
    (outcome : FetchOutcome) (hid : id ≠ "") (hfail : outcome ≠ FetchOutcome.ok) :
    (uploadAudioChunk (some id) blobSize fin outcome).requests
        = [{ meetingId := id, blobSize := blobSize, is_final := fin }]
    ∧ (uploadAudioChunk (some id) blobSize fin outcome).errorLogs = 1
    ∧ (uploadAudioChunk (some id) blobSize fin outcome).threw = false := by
  have ht : jsTruthy (some id) = true := by simp [jsTruthy, hid]
  unfold uploadAudioChunk
  rw [ht]
  cases outcome with
  | ok => exact absurd rfl hfail
  | httpError => exact ⟨rfl, rfl, rfl⟩
  | netError => exact ⟨rfl, rfl, rfl⟩

/-- Witness for C9 at a concrete failing upload. -/
theorem c9_upload_failure_swallowed_witness :
    (uploadAudioChunk (some "m1") 4 false FetchOutcome.netError).errorLogs = 1
    ∧ (uploadAudioChunk (some "m1") 4 false FetchOutcome.netError).threw = false := by
  have h := c9_upload_failure_swallowed "m1" 4 false FetchOutcome.netError
    (by decide) (by decide)
  exact ⟨h.2.1, h.2.2⟩

/-- Claim C10: with no meeting id established, uploading any blob returns
immediately: no request is issued, nothing is logged and nothing thrown. -/
theorem c10_upload_without_meeting_noop (blobSize : Nat) (fin : Bool)
    (outcome : FetchOutcome) :
    (uploadAudioChunk none blobSize fin outcome).requests = []
    ∧ (uploadAudioChunk none blobSize fin outcome).errorLogs = 0
    ∧ (uploadAudioChunk none blobSize fin outcome).threw = false :=
  ⟨rfl, rfl, rfl⟩

theorem applyTranscript_qaDisplay (st : AppState) (d : UpdateData) :
    (applyTranscript st d).qaDisplay = st.qaDisplay := by
  unfold applyTranscript
  split <;> (try split) <;> rfl

theorem applySpeakers_qaDisplay (st : AppState) (d : UpdateData) :
    (applySpeakers st d).qaDisplay = st.qaDisplay := by
  unfold applySpeakers
  split <;> (try split) <;> rfl

theorem applyStatusIndicator_qaDisplay (st : AppState) (d : UpdateData) :
    (applyStatusIndicator st d).qaDisplay = st.qaDisplay := by
  unfold applyStatusIndicator
  split <;> (try split) <;> rfl

theorem applyQA_sets (st : AppState) (d : UpdateData) (l : List QAPair)
    (hq : d.qa_pairs = some l) (hl : l ≠ []) : (applyQA st d).qaDisplay = l := by
  unfold applyQA
  rw [hq]
  simp [hl, updateQADisplay]

theorem applyTranscript_participantCount (st : AppState) (d : UpdateData) :
    (applyTranscript st d).participantCount = st.participantCount := by
  unfold applyTranscript
  split <;> (try split) <;> rfl

theorem applyQA_participantCount (st : AppState) (d : UpdateData) :
    (applyQA st d).participantCount = st.participantCount := by
  unfold applyQA updateQADisplay
  split <;> (try split) <;> rfl

theorem applyStatusIndicator_participantCount (st : AppState) (d : UpdateData) :
    (applyStatusIndicator st d).participantCount = st.participantCount := by
  unfold applyStatusIndicator
  split <;> (try split) <;> rfl

/-- Counterexample to C2 as stated: two consecutive payloads with a
completed status run the completion handling twice, not exactly once. -/
theorem c2_two_completed_counterexample :
    (handleUpdate (handleUpdate initApp completedPayload) completedPayload).completions
        = 2
    ∧ (handleUpdate (handleUpdate initApp completedPayload) completedPayload).completions
        ≠ 1 := by
  decide

/-- Claim C2 as amended: the completion handling is unguarded, so every
payload with a completed status (and no truthy error field) triggers it
exactly once per payload; two consecutive completed payloads trigger it
twice. -/
theorem c2_completed_increments_once (st : AppState) (d : UpdateData)
    (he : jsTruthy d.error = false) (hs : d.status = some "completed") :
    (handleUpdate st d).completions = st.completions + 1
    ∧ (handleUpdate (handleUpdate st d) d).completions = st.completions + 2 := by
  have h1 : ∀ s : AppState, (handleUpdate s d).completions = s.completions + 1 := by
    intro s
    unfold handleUpdate
    rw [if_neg (by simp [he]), if_pos hs]
    rfl
  exact ⟨h1 st, by rw [h1 (handleUpdate st d), h1 st]⟩

/-- Witness for the amended C2 at a concrete state and payload. -/
theorem c2_completed_increments_once_witness :
    (handleUpdate initApp completedPayload).completions = initApp.completions + 1
    ∧ (handleUpdate (handleUpdate initApp completedPayload) completedPayload).completions
        = initApp.completions + 2 :=
  c2_completed_increments_once initApp completedPayload (by decide) (by decide)

/-- Counterexample to C3 as stated: a payload whose qa_pairs field is
present but empty does not replace the canonical QA list, which keeps the
previous payload's list instead of becoming empty. -/
theorem c3_empty_qa_counterexample :
    (handleUpdate (handleUpdate initApp qaPayloadA) qaPayloadEmptyB).qaDisplay
        = [samplePair]
    ∧ (handleUpdate (handleUpdate initApp qaPayloadA) qaPayloadEmptyB).qaDisplay
        ≠ [] := by
  decide

/-- Claim C3 as amended: whenever the second payload carries a non-empty
qa_pairs list (and no truthy error field and no completed status), the
canonical QA list after applying both payloads equals exactly that list —
full replacement, never a union with the first payload's list. -/
theorem c3_qa_full_replace (st : AppState) (A B : UpdateData) (l : List QAPair)
    (he : jsTruthy B.error = false) (hs : B.status ≠ some "completed")
    (hq : B.qa_pairs = some l) (hl : l ≠ []) :
    (handleUpdate (handleUpdate st A) B).qaDisplay = l := by
  have key : ∀ s : AppState, (handleUpdate s B).qaDisplay = l := by
    intro s
    unfold handleUpdate
    rw [if_neg (by simp [he]), if_neg hs, applyStatusIndicator_qaDisplay,
        applySpeakers_qaDisplay, applyQA_sets _ B l hq hl]
  exact key (handleUpdate st A)

/-- Witness for the amended C3 at concrete payloads. -/
theorem c3_qa_full_replace_witness :
    (handleUpdate (handleUpdate initApp qaPayloadEmptyB) qaPayloadA).qaDisplay
        = [samplePair] :=
  c3_qa_full_replace initApp qaPayloadEmptyB qaPayloadA [samplePair]
    (by decide) (by decide) (by decide) (by decide)

/-- Counterexample to C6 as stated: a payload carrying total_speakers
together with a completed status leaves the canonical speaker count
unchanged — the application is not independent of the status field. -/
theorem c6_completed_blocks_speakers_counterexample :
    (handleUpdate initApp speakersCompletedPayload).participantCount = none
    ∧ (handleUpdate initApp speakersCompletedPayload).participantCount ≠ some 5 := by
  decide

/-- Claim C6 as amended: for a payload with no truthy error field, no
completed status and a nonzero total_speakers value, the canonical speaker
count is set to that value (last value wins), independently of the
transcript and qa_pairs fields of the same payload. -/
theorem c6_speakers_last_value_wins (st : AppState) (d : UpdateData) (v : Nat)
    (he : jsTruthy d.error = false) (hs : d.status ≠ some "completed")
    (hv : d.total_speakers = some v) (hnz : v ≠ 0) :
    (handleUpdate st d).participantCount = some v := by
  unfold handleUpdate
  rw [if_neg (by simp [he]), if_neg hs, applyStatusIndicator_participantCount]
  unfold applySpeakers
  rw [hv]
  simp [hnz]

/-- Witness for the amended C6 at a concrete state and payload. -/
theorem c6_speakers_last_value_wins_witness :
    (handleUpdate initApp speakersPayload).participantCount = some 4 :=
  c6_speakers_last_value_wins initApp speakersPayload 4
    (by decide) (by decide) (by decide) (by decide)

/-- Claim C1 (code-bug evidence): a session records one byte of audio and
is stopped before the next segmentation tick, so the encoder still holds
the byte when stopRecording runs.  The synchronous final-flush check sees
an empty buffer, the byte is delivered by the queued dataavailable event,
and the queued stop event forwards it with isFinal left at its default:
the session forwards exactly one chunk, carrying the captured data, with
isFinal = false — audio was captured, yet no chunk with isFinal = true is
emitted and the temporally last forwarded chunk is non-final. -/
theorem c1_stop_final_flush_unmarked :
    (stopRecording (capture (startRecording initAH) 1)).sent
        = [{ size := 1, isFinal := false }]
    ∧ ((stopRecording (capture (startRecording initAH) 1)).sent.countP
        fun c => c.isFinal) = 0 := by
  decide

theorem sendChunk_chunks (s : AHState) (b : Bool) : (sendChunk s b).chunks = [] := by
  unfold sendChunk
  split <;> simp_all

theorem stopRecording_state (s : AHState) :
    (stopRecording s).recState = RecState.inactive
    ∧ (stopRecording s).chunks = []
    ∧ (stopRecording s).isRecording = false
    ∧ (stopRecording s).chunkTimer = false
    ∧ (stopRecording s).visualizerTimer = false
    ∧ (stopRecording s).streamStopped = true
    ∧ (stopRecording s).contextClosed = true := by
  obtain ⟨rs, p, ch, ir, ct, vt, ss, cc, snt⟩ := s
  cases rs <;> cases ch <;>
    simp only [stopRecording, sendChunk, deliverPending, dataavailable] <;>
    split_ifs <;> simp_all

theorem stopRecording_noop (s : AHState) (h1 : s.recState = RecState.inactive)
    (h2 : s.chunks = []) (h3 : s.isRecording = false) (h4 : s.chunkTimer = false)
    (h5 : s.visualizerTimer = false) (h6 : s.streamStopped = true)
    (h7 : s.contextClosed = true) : stopRecording s = s := by
  cases s
  simp_all [stopRecording]

theorem stopRecording_idem (s : AHState) :
    stopRecording (stopRecording s) = stopRecording s := by
  obtain ⟨h1, h2, h3, h4, h5, h6, h7⟩ := stopRecording_state s
  exact stopRecording_noop _ h1 h2 h3 h4 h5 h6 h7

theorem stopMeeting_isActive (st : AppState) (ok : Bool) :
    (stopMeeting st ok).isActive = false := by
  unfold stopMeeting
  split
  · assumption
  · simp

theorem stopMeeting_noop (st : AppState) (ok : Bool) (h : st.isActive = false) :
    stopMeeting st ok = st := by
  unfold stopMeeting
  simp [h]

/-- Claim C5: stop is idempotent on both components — a second
stopRecording on the capture pipeline leaves the whole handler state
(including the log of forwarded chunks, so no extra final chunk, and the
teardown flags, so no duplicated teardown effect) exactly as the first
left it, and a second stopMeeting returns without repeating any teardown
or finalize side effect; both are total functions, so neither call raises
an error. -/
theorem c5_stop_idempotent (s : AHState) (st : AppState) (ok1 ok2 : Bool) :
    stopRecording (stopRecording s) = stopRecording s
    ∧ stopMeeting (stopMeeting st ok1) ok2 = stopMeeting st ok1 :=
  ⟨stopRecording_idem s, stopMeeting_noop _ ok2 (stopMeeting_isActive st ok1)⟩

/-- Claim C8 (code-bug evidence): when the server rejects the stop request,
the failure is alerted and the stop button re-enabled — but isActive was
already cleared on the failure path, so the user's retry returns at the
isActive guard: the whole second stopMeeting is a no-op and in particular
no second finalize request is ever sent (finalizeAttempts stays 1). -/
theorem c8_failed_finalize_retry_noop :
    (stopMeeting initApp false).alerts = 1
    ∧ (stopMeeting initApp false).stopBtnEnabled = true
    ∧ (stopMeeting initApp false).finalizeAttempts = 1
    ∧ stopMeeting (stopMeeting initApp false) false = stopMeeting initApp false := by
  refine ⟨by decide, by decide, by decide, ?_⟩
  exact stopMeeting_noop _ false (stopMeeting_isActive initApp false)

/-- The transport-related fields of the app state: EventSource lifecycle,
close count, poll-interval flag and cadence, and the tagged update log. -/
def syncView (st : AppState) :
    ESState × Nat × Bool × Option Nat × List (TransportSource × UpdateData) :=
  (st.esState, st.esCloseCount, st.polling, st.pollMs, st.received)

theorem applyTranscript_syncView (st : AppState) (d : UpdateData) :
    syncView (applyTranscript st d) = syncView st := by
  unfold applyTranscript
  repeat' split
  all_goals rfl

theorem applyQA_syncView (st : AppState) (d : UpdateData) :
    syncView (applyQA st d) = syncView st := by
  unfold applyQA updateQADisplay
  repeat' split
  all_goals rfl

theorem applySpeakers_syncView (st : AppState) (d : UpdateData) :
    syncView (applySpeakers st d) = syncView st := by
  unfold applySpeakers
  repeat' split
  all_goals rfl

theorem applyStatusIndicator_syncView (st : AppState) (d : UpdateData) :
    syncView (applyStatusIndicator st d) = syncView st := by
  unfold applyStatusIndicator
  repeat' split
  all_goals rfl

theorem handleUpdate_syncView (st : AppState) (d : UpdateData) :
    syncView (handleUpdate st d) = syncView st := by
  unfold handleUpdate
  split
  · rfl
  · split
    · rfl
    · rw [applyStatusIndicator_syncView, applySpeakers_syncView, applyQA_syncView,
          applyTranscript_syncView]

theorem syncStep_closed (st : AppState) (e : SyncEvent)
    (h : st.esState = ESState.closed) :
    (syncStep st e).esState = ESState.closed
    ∧ (syncStep st e).esCloseCount = st.esCloseCount
    ∧ (syncStep st e).polling = st.polling
    ∧ (syncStep st e).pollMs = st.pollMs
    ∧ ∃ t, (syncStep st e).received = st.received ++ t
        ∧ ∀ u ∈ t, u.1 = TransportSource.poll := by
  cases e with
  | esMessage d =>
      have hs : syncStep st (SyncEvent.esMessage d) = st := by simp [syncStep, h]
      rw [hs]
      exact ⟨h, rfl, rfl, rfl, [], by simp, by simp⟩
  | esError =>
      have hs : syncStep st SyncEvent.esError = st := by simp [syncStep, h]
      rw [hs]
      exact ⟨h, rfl, rfl, rfl, [], by simp, by simp⟩
  | pollTick d =>
      cases d with
      | none =>
          have hs : syncStep st (SyncEvent.pollTick none) = st := by
            simp [syncStep]
          rw [hs]
          exact ⟨h, rfl, rfl, rfl, [], by simp, by simp⟩
      | some u =>
          by_cases hp : st.polling = true
          · have hs : syncStep st (SyncEvent.pollTick (some u)) =
                { handleUpdate st u with received :=
                    (handleUpdate st u).received ++ [(TransportSource.poll, u)] } := by
              simp [syncStep, hp]
            have hv := handleUpdate_syncView st u
            have e1 : (handleUpdate st u).esState = st.esState :=
              congrArg Prod.fst hv
            have e2 : (handleUpdate st u).esCloseCount = st.esCloseCount :=
              congrArg (fun v => v.2.1) hv
            have e3 : (handleUpdate st u).polling = st.polling :=
              congrArg (fun v => v.2.2.1) hv
            have e4 : (handleUpdate st u).pollMs = st.pollMs :=
              congrArg (fun v => v.2.2.2.1) hv
            have e5 : (handleUpdate st u).received = st.received :=
              congrArg (fun v => v.2.2.2.2) hv
            rw [hs]
            refine ⟨e1.trans h, e2, e3, e4, [(TransportSource.poll, u)], ?_, by simp⟩
            show (handleUpdate st u).received ++ [(TransportSource.poll, u)]
                = st.received ++ [(TransportSource.poll, u)]
            rw [e5]
          · have hs : syncStep st (SyncEvent.pollTick (some u)) = st := by
              simp [syncStep, hp]
            rw [hs]
            exact ⟨h, rfl, rfl, rfl, [], by simp, by simp⟩

theorem foldl_syncStep_closed (evs : List SyncEvent) :
    ∀ st : AppState, st.esState = ESState.closed →
      (evs.foldl syncStep st).esState = ESState.closed
      ∧ (evs.foldl syncStep st).esCloseCount = st.esCloseCount
      ∧ (evs.foldl syncStep st).polling = st.polling
      ∧ (evs.foldl syncStep st).pollMs = st.pollMs
      ∧ ∃ t, (evs.foldl syncStep st).received = st.received ++ t
          ∧ ∀ u ∈ t, u.1 = TransportSource.poll := by
  induction evs with
  | nil =>
      intro st h
      exact ⟨h, rfl, rfl, rfl, [], by simp, by simp⟩
  | cons e evs ih =>
      intro st h
      rw [List.foldl_cons]
      obtain ⟨h1, h2, h3, h4, t1, ht1, hall1⟩ := syncStep_closed st e h
      obtain ⟨g1, g2, g3, g4, t2, ht2, hall2⟩ := ih (syncStep st e) h1
      refine ⟨g1, g2.trans h2, g3.trans h3, g4.trans h4, t1 ++ t2, ?_, ?_⟩
      · rw [ht2, ht1, List.append_assoc]
      · intro u hu
        rcases List.mem_append.mp hu with hmem | hmem
        · exact hall1 u hmem
        · exact hall2 u hmem

/-- Claim C7: an error on the live push stream closes the push transport
exactly once (the close counter moves from n to n + 1 and never again) and
switches to polling at the fixed 3000 ms cadence; polling is terminal — for
every subsequent event sequence the stream stays closed, the poll interval
stays scheduled at 3000 ms, and every update received from then on is
tagged with the polling transport. -/
theorem c7_polling_fallback_terminal (st : AppState) (evs : List SyncEvent)
    (h : st.esState = ESState.streaming) :
    (syncStep st SyncEvent.esError).esState = ESState.closed
    ∧ (syncStep st SyncEvent.esError).esCloseCount = st.esCloseCount + 1
    ∧ (syncStep st SyncEvent.esError).polling = true
    ∧ (syncStep st SyncEvent.esError).pollMs = some 3000
    ∧ (syncStep st SyncEvent.esError).received = st.received
    ∧ (evs.foldl syncStep (syncStep st SyncEvent.esError)).esState = ESState.closed
    ∧ (evs.foldl syncStep (syncStep st SyncEvent.esError)).esCloseCount
        = st.esCloseCount + 1
    ∧ (evs.foldl syncStep (syncStep st SyncEvent.esError)).polling = true
    ∧ (evs.foldl syncStep (syncStep st SyncEvent.esError)).pollMs = some 3000
    ∧ ∃ t, (evs.foldl syncStep (syncStep st SyncEvent.esError)).received
          = st.received ++ t
        ∧ ∀ u ∈ t, u.1 = TransportSource.poll := by
  have hs : syncStep st SyncEvent.esError =
      { st with esState := ESState.closed, esCloseCount := st.esCloseCount + 1,
                polling := true, pollMs := some 3000 } := by
    simp [syncStep, closeES, startPolling, h]
  have p2 : (syncStep st SyncEvent.esError).esCloseCount = st.esCloseCount + 1 := by
    rw [hs]
  have p3 : (syncStep st SyncEvent.esError).polling = true := by rw [hs]
  have p4 : (syncStep st SyncEvent.esError).pollMs = some 3000 := by rw [hs]
  have p5 : (syncStep st SyncEvent.esError).received = st.received := by rw [hs]
  obtain ⟨g1, g2, g3, g4, t, ht, hall⟩ :=
    foldl_syncStep_closed evs (syncStep st SyncEvent.esError) (by rw [hs])
  rw [p5] at ht
  exact ⟨by rw [hs], p2, p3, p4, p5, g1, g2.trans p2, g3.trans p3, g4.trans p4,
         t, ht, hall⟩

/-- Witness for C7: from the live mid-meeting state, one stream error then
one poll tick. -/
theorem c7_polling_fallback_terminal_witness :
    (syncStep initApp SyncEvent.esError).esCloseCount = 1
    ∧ ([SyncEvent.pollTick none].foldl syncStep
        (syncStep initApp SyncEvent.esError)).polling = true
    ∧ ([SyncEvent.pollTick none].foldl syncStep
        (syncStep initApp SyncEvent.esError)).pollMs = some 3000 := by
  obtain ⟨-, h2, -, -, -, -, -, h8, h9, -⟩ :=
    c7_polling_fallback_terminal initApp [SyncEvent.pollTick none] rfl
  exact ⟨h2, h8, h9⟩

end Minmeet
